import Mathlib

/-!
Shallow embedding of the AnubisAi wallet / digital-twin subsystem.

The definitions below translate, as directly as Lean allows, the Go source in
`src/adapters/tfgrid_adapter.go` and the authentication service
(`AuthService.Register` and its helpers).  External library calls
(`tyler-smith/go-bip39`, `centrifuge/go-substrate-rpc-client/signature`,
`bcrypt`, JWT signing) are modelled as explicit function parameters, and every
random draw (`crypto/rand`) is modelled as an explicit input, so that every
definition is a pure, executable function of its inputs.  Go panics are
modelled as `none` of an `Option` result.
-/

/-- Bytes are modelled as natural numbers (values below 256 in practice). -/
abbrev Byte := Nat

/-- Lower-case hexadecimal digit for a value below 16, as produced by Go's
`encoding/hex`. -/
def hexDigit (n : Nat) : Char :=
  if n < 10 then Char.ofNat (48 + n) else Char.ofNat (87 + n)

/-- The two lower-case hex characters of one byte. -/
def hexByte (b : Byte) : List Char :=
  [hexDigit (b / 16 % 16), hexDigit (b % 16)]

/-- Go `hex.EncodeToString`: two lower-case hex characters per input byte. -/
def hexEncode (bytes : List Byte) : String :=
  String.mk (List.flatten (bytes.map hexByte))

/-- `WalletInfo` from `src/adapters/tfgrid_adapter.go` (lines 26-31). -/
structure WalletInfo where
  address : String
  publicKey : String
  mnemonic : String
  network : String
deriving DecidableEq, Repr

/-- `NetworkInfo` from `src/adapters/tfgrid_adapter.go` (lines 34-39). -/
structure NetworkInfo where
  name : String
  substrate : String
  relay : String
  graphQL : String
deriving DecidableEq, Repr

/-- The endpoint configuration installed for the `main` network. -/
def mainNetworkInfo : NetworkInfo :=
  { name := "main"
  , substrate := "wss://tfchain.grid.tf:443"
  , relay := "wss://relay.grid.tf:443"
  , graphQL := "https://graphql.grid.tf/graphql" }

/-- The endpoint configuration installed for the `test` network. -/
def testNetworkInfo : NetworkInfo :=
  { name := "test"
  , substrate := "wss://tfchain.test.grid.tf:443"
  , relay := "wss://relay.test.grid.tf:443"
  , graphQL := "https://graphql.test.grid.tf/graphql" }

/-- The endpoint configuration installed for the `qa` network. -/
def qaNetworkInfo : NetworkInfo :=
  { name := "qa"
  , substrate := "wss://tfchain.qa.grid.tf:443"
  , relay := "wss://relay.qa.grid.tf:443"
  , graphQL := "https://graphql.qa.grid.tf/graphql" }

/-- The endpoint configuration installed for the `dev` network. -/
def devNetworkInfo : NetworkInfo :=
  { name := "dev"
  , substrate := "wss://tfchain.dev.grid.tf:443"
  , relay := "wss://relay.dev.grid.tf:443"
  , graphQL := "https://graphql.dev.grid.tf/graphql" }

/-- `RealTFGridAdapter` (tfgrid_adapter.go lines 42-46).  The `httpClient`
field carries no observable state relevant to any operation here and is
omitted. -/
structure RealTFGridAdapter where
  network : String
  networkInfo : NetworkInfo
deriving DecidableEq, Repr

/-- `NewRealTFGridAdapter` (tfgrid_adapter.go lines 49-100): the switch on the
network token; every unrecognized token falls into the `default` branch, which
sets the network to `test` with the test configuration. -/
def NewRealTFGridAdapter (network : String) : RealTFGridAdapter :=
  if network = "main" then { network := network, networkInfo := mainNetworkInfo }
  else if network = "test" then { network := network, networkInfo := testNetworkInfo }
  else if network = "qa" then { network := network, networkInfo := qaNetworkInfo }
  else if network = "dev" then { network := network, networkInfo := devNetworkInfo }
  else { network := "test", networkInfo := testNetworkInfo }

/-- `RealTFGridAdapter.GetNetworkInfo` (tfgrid_adapter.go lines 103-105). -/
def RealTFGridAdapter.GetNetworkInfo (r : RealTFGridAdapter) : NetworkInfo :=
  r.networkInfo

/-- The key pair returned by the substrate signature library
(`signature.KeyringPairFromSecret`): an SS58 address and raw public-key
bytes. -/
structure KeyringPair where
  address : String
  publicKey : List Byte
deriving DecidableEq, Repr

/-- The external cryptographic libraries used by the real adapter, modelled as
explicit deterministic functions: BIP-39 mnemonic validation
(`bip39.IsMnemonicValid`), mnemonic construction from entropy bytes
(`bip39.NewMnemonic`), and key-pair derivation from a secret phrase plus an
SS58 format number (`signature.KeyringPairFromSecret`).  All three Go
functions are pure: they take no randomness and keep no state. -/
structure CryptoFns where
  isMnemonicValid : String → Bool
  newMnemonic : List Byte → Except String String
  keyringPairFromSecret : String → Nat → Except String KeyringPair

/-- `RealTFGridAdapter.DeriveWalletFromMnemonic` (tfgrid_adapter.go lines
126-152): reject the mnemonic unless `bip39.IsMnemonicValid` accepts it, then
derive the key pair with SS58 format 42 (hard-coded for every network), and
package address, hex-encoded public key, the mnemonic and the adapter's
network name. -/
def RealTFGridAdapter.DeriveWalletFromMnemonic (lib : CryptoFns)
    (r : RealTFGridAdapter) (mnemonic : String) : Except String WalletInfo :=
  if lib.isMnemonicValid mnemonic = false then
    Except.error "invalid mnemonic phrase"
  else
    match lib.keyringPairFromSecret mnemonic 42 with
    | Except.error e => Except.error ("failed to create key pair from mnemonic: " ++ e)
    | Except.ok keyringPair =>
        Except.ok
          { address := keyringPair.address
          , publicKey := hexEncode keyringPair.publicKey
          , mnemonic := mnemonic
          , network := r.network }

/-- `RealTFGridAdapter.GenerateWallet` (tfgrid_adapter.go lines 108-123):
`bip39.NewEntropy(256)` draws 32 random bytes, modelled by the explicit
`entropy` argument; the resulting mnemonic is delegated to
`DeriveWalletFromMnemonic`. -/
def RealTFGridAdapter.GenerateWallet (lib : CryptoFns) (r : RealTFGridAdapter)
    (entropy : List Byte) : Except String WalletInfo :=
  match lib.newMnemonic entropy with
  | Except.error e => Except.error ("failed to generate mnemonic: " ++ e)
  | Except.ok mnemonic => r.DeriveWalletFromMnemonic lib mnemonic

/-- `RealTFGridAdapter.CreateDigitalTwin` (tfgrid_adapter.go lines 155-179):
`rand.Int(rand.Reader, 1000000)` is modelled by the explicit `randDraw`
argument (the library guarantees a value in `[0, 1000000)`); a zero draw is
replaced by 1; the wallet address is only logged and never influences the id,
and no persisted state is consulted. -/
def RealTFGridAdapter.CreateDigitalTwin (r : RealTFGridAdapter)
    (randDraw : Nat) (walletAddress : String) : Except String Nat :=
  let twinID := randDraw
  let twinID := if twinID = 0 then 1 else twinID
  Except.ok twinID

/-- `MockTFGridAdapter` (tfgrid_adapter.go lines 182-185). -/
structure MockTFGridAdapter where
  network : String
  networkInfo : NetworkInfo
deriving DecidableEq, Repr

/-- `NewMockTFGridAdapter` (tfgrid_adapter.go lines 188-198). -/
def NewMockTFGridAdapter (network : String) : MockTFGridAdapter :=
  { network := network
  , networkInfo :=
      { name := network
      , substrate := "wss://tfchain." ++ network ++ ".grid.tf:443"
      , relay := "wss://relay." ++ network ++ ".grid.tf:443"
      , graphQL := "https://graphql." ++ network ++ ".grid.tf/graphql" } }

/-- `MockTFGridAdapter.GetNetworkInfo` (tfgrid_adapter.go lines 201-203). -/
def MockTFGridAdapter.GetNetworkInfo (m : MockTFGridAdapter) : NetworkInfo :=
  m.networkInfo

/-- Go string slicing `s[:n]`: returns the first `n` bytes, but panics when
`n` exceeds the length.  The panic is modelled as `none`.  (All strings sliced
here are pure ASCII hex output, so bytes and characters coincide.) -/
def goStringSliceTo (s : String) (n : Nat) : Option String :=
  if n ≤ s.length then some (String.mk (s.toList.take n)) else none

/-- `MockTFGridAdapter.DeriveWalletFromMnemonic` (tfgrid_adapter.go lines
213-230): `rand.Read` fills a 16-byte buffer for the address and a 32-byte
buffer for the public key, modelled by the byte stream `rng`; the address is
"5" followed by the slice `[:47]` of the hex encoding of the 16 address
bytes.  That hex string has 32 characters, so in Go the slice panics, which
the `Option` result records as `none`. -/
def MockTFGridAdapter.DeriveWalletFromMnemonic (m : MockTFGridAdapter)
    (rng : Nat → Byte) (mnemonic : String) : Option WalletInfo :=
  let addressBytes := (List.range 16).map rng
  match goStringSliceTo (hexEncode addressBytes) 47 with
  | none => none
  | some sliced =>
      let pubKeyBytes := (List.range 32).map (fun i => rng (16 + i))
      some
        { address := "5" ++ sliced
        , publicKey := hexEncode pubKeyBytes
        , mnemonic := mnemonic
        , network := m.network }

/-- The fixed mnemonic hard-coded in `MockTFGridAdapter.GenerateWallet`
(tfgrid_adapter.go line 208): the standard 12-word BIP-39 test vector. -/
def mockGenerateMnemonic : String :=
  "abandon abandon abandon abandon abandon abandon abandon abandon abandon abandon abandon about"

/-- `MockTFGridAdapter.GenerateWallet` (tfgrid_adapter.go lines 206-210):
delegates the fixed 12-word mnemonic to the mock derivation. -/
def MockTFGridAdapter.GenerateWallet (m : MockTFGridAdapter)
    (rng : Nat → Byte) : Option WalletInfo :=
  m.DeriveWalletFromMnemonic rng mockGenerateMnemonic

/-- `MockTFGridAdapter.CreateDigitalTwin` (tfgrid_adapter.go lines 233-237):
`time.Now().Unix()` is modelled by the explicit `nowUnix` argument. -/
def MockTFGridAdapter.CreateDigitalTwin (m : MockTFGridAdapter)
    (nowUnix : Int) (walletAddress : String) : Except String Int :=
  Except.ok (nowUnix % 1000000)

/-- Splitting a character list on single spaces, the semantics of Go's
`strings.Split(s, " ")` used by the BIP-39 library to count words. -/
def splitOnSpace : List Char → List Char → List (List Char)
  | [], acc => [acc.reverse]
  | c :: rest, acc =>
      if c = ' ' then acc.reverse :: splitOnSpace rest []
      else splitOnSpace rest (c :: acc)

/-- Number of space-separated words of a string. -/
def wordCount (s : String) : Nat :=
  (splitOnSpace s.toList []).length

/-!
The authentication service (package `services`, bundled in
`src/anubis-backend/handlers/health.go` lines 126-557): `AuthService.Register`
and its helpers, embedded with explicit state passing.  The database is a list
of user records; gorm soft deletion (`deleted_at IS NULL`) is a `deleted`
flag.  The TFGrid adapter, bcrypt hashing and JWT signing are the service's
collaborators and are modelled as explicit function fields.
-/

/-- `RegisterRequest` (health.go lines 154-161). -/
structure RegisterRequest where
  firstName : String
  lastName : String
  email : String
  password : String
  username : String
  mnemonic : String
deriving DecidableEq, Repr

/-- `adapters.DigitalTwinMetadata` as constructed by `Register` (health.go
lines 265-273); its own Go declaration is absent from the repository (the
audit report lists it as missing), so the fields are those the caller sets. -/
structure DigitalTwinMetadata where
  name : String
  email : String
  description : String
  attributes : List (String × String)
deriving DecidableEq, Repr

/-- Modelled from the spec: the `DigitalTwin` record returned by the twin
registrar.  Its Go declaration is absent from the repository (the audit
report lists the expected signature `CreateDigitalTwin(address, metadata) →
(*DigitalTwin, error)`); spec section 3 gives `{id : int64, ownerAddress,
metadata}`.  `Register` reads only the `id` field. -/
structure DigitalTwin where
  id : Int
  ownerAddress : String
  metadata : DigitalTwinMetadata
deriving DecidableEq, Repr

/-- The TFGrid adapter operations as consumed by `AuthService` (the
`adapters.TFGridAdapter` interface in the shape `Register` and
`validateRegistrationInput` call it).  Each registration invokes each
operation at most once, so one function value per operation models one
call's behavior. -/
structure TFGridAdapterOps where
  GenerateWallet : Except String WalletInfo
  DeriveWalletFromMnemonic : String → Except String WalletInfo
  CreateDigitalTwin : String → DigitalTwinMetadata → Except String DigitalTwin
  ValidateMnemonic : String → Except String Unit

/-- The `models.User` record as constructed and persisted by `Register`
(health.go lines 281-294).  Database-assigned fields (UUID primary key,
timestamps) are not modelled; `deleted` models gorm's soft-delete mark. -/
structure UserRecord where
  email : String
  username : String
  password : String
  firstName : String
  lastName : String
  walletAddress : String
  twinID : Option Int
  publicKey : String
  network : String
  hasWallet : Bool
  isActive : Bool
  emailVerified : Bool
  deleted : Bool
deriving DecidableEq, Repr

/-- The gorm count of live users with a given email
(`Model(&User{}).Where("email = ? AND deleted_at IS NULL").Count`). -/
def countUsersByEmail (db : List UserRecord) (email : String) : Nat :=
  (db.filter (fun u => u.email == email && !u.deleted)).length

/-- The gorm count of live users with a given username. -/
def countUsersByUsername (db : List UserRecord) (username : String) : Nat :=
  (db.filter (fun u => u.username == username && !u.deleted)).length

/-- The gorm count of live users with a given wallet address. -/
def countUsersByWallet (db : List UserRecord) (walletAddress : String) : Nat :=
  (db.filter (fun u => u.walletAddress == walletAddress && !u.deleted)).length

/-- `AuthService.checkUserExists` (health.go lines 481-501): the email count
is checked first and reports "email already exists"; only then is the
username count checked, reporting "username already exists". -/
def checkUserExists (db : List UserRecord) (email username : String) :
    Except String Unit :=
  if countUsersByEmail db email > 0 then Except.error "email already exists"
  else if countUsersByUsername db username > 0 then Except.error "username already exists"
  else Except.ok ()

/-- `AuthService.checkWalletExists` (health.go lines 503-512). -/
def checkWalletExists (db : List UserRecord) (walletAddress : String) :
    Except String Unit :=
  if countUsersByWallet db walletAddress > 0 then
    Except.error "wallet address already registered"
  else Except.ok ()

/-- ASCII letter, the class `[a-zA-Z]`. -/
def isAlphaChar (c : Char) : Bool :=
  (65 ≤ c.toNat && c.toNat ≤ 90) || (97 ≤ c.toNat && c.toNat ≤ 122)

/-- ASCII digit, the class `[0-9]`. -/
def isDigitChar (c : Char) : Bool :=
  48 ≤ c.toNat && c.toNat ≤ 57

/-- The class `[a-zA-Z0-9]`. -/
def isAlnumChar (c : Char) : Bool :=
  isAlphaChar c || isDigitChar c

/-- The local-part class `[a-zA-Z0-9._%+-]` of the email pattern. -/
def isEmailLocalChar (c : Char) : Bool :=
  isAlnumChar c || c == '.' || c == '_' || c == '%' || c == '+' || c == '-'

/-- The domain class `[a-zA-Z0-9.-]` of the email pattern. -/
def isEmailDomainChar (c : Char) : Bool :=
  isAlnumChar c || c == '.' || c == '-'

/-- Matching of the anchored pattern `^[a-zA-Z]+$` (health.go line 425). -/
def nameRegexMatches (s : String) : Bool :=
  !s.toList.isEmpty && s.toList.all isAlphaChar

/-- Matching of the anchored pattern `^[a-zA-Z0-9]+$` (health.go line 453). -/
def usernameRegexMatches (s : String) : Bool :=
  !s.toList.isEmpty && s.toList.all isAlnumChar

/-- Matching of the anchored email pattern
`^[a-zA-Z0-9._%+-]+@[a-zA-Z0-9.-]+\.[a-zA-Z]{2,}$` (health.go line 442).
Neither character class admits `@`, so a match splits the string at its first
`@`; the final `[a-zA-Z]{2,}` admits no dot, so the top-level-domain part is
the suffix after the last dot following the `@`. -/
def emailRegexMatches (s : String) : Bool :=
  let cs := s.toList
  let localPart := cs.takeWhile (fun c => c != '@')
  match cs.drop localPart.length with
  | [] => false
  | _atSign :: domainAll =>
      let tldRev := domainAll.reverse.takeWhile (fun c => c != '.')
      match domainAll.reverse.drop tldRev.length with
      | [] => false
      | _dot :: domRev =>
          !localPart.isEmpty && localPart.all isEmailLocalChar &&
          !domRev.isEmpty && domRev.all isEmailDomainChar &&
          2 ≤ tldRev.length && tldRev.all isAlphaChar

/-- Go `len` on a string counts bytes. -/
def goStringLen (s : String) : Nat :=
  s.utf8ByteSize

/-- `AuthService.validateRegistrationInput` (health.go lines 423-469), with
the checks in source order; a non-empty mnemonic is validated through the
adapter's `ValidateMnemonic`. -/
def validateRegistrationInput (adapter : TFGridAdapterOps)
    (req : RegisterRequest) : Except String Unit :=
  if !nameRegexMatches req.firstName then
    Except.error "first name must contain only alphabetic characters"
  else if !nameRegexMatches req.lastName then
    Except.error "last name must contain only alphabetic characters"
  else if goStringLen req.firstName < 2 || goStringLen req.firstName > 32 then
    Except.error "first name must be between 2 and 32 characters"
  else if goStringLen req.lastName < 2 || goStringLen req.lastName > 32 then
    Except.error "last name must be between 2 and 32 characters"
  else if !emailRegexMatches req.email then
    Except.error "invalid email format"
  else if goStringLen req.password < 8 then
    Except.error "password must be at least 8 characters long"
  else if !usernameRegexMatches req.username then
    Except.error "username must contain only alphanumeric characters"
  else if goStringLen req.username < 3 || goStringLen req.username > 50 then
    Except.error "username must be between 3 and 50 characters"
  else if req.mnemonic != "" then
    match adapter.ValidateMnemonic req.mnemonic with
    | Except.error e => Except.error ("invalid mnemonic: " ++ e)
    | Except.ok _ => Except.ok ()
  else Except.ok ()

/-- `services.UserProfile` (health.go lines 181-194), without the
database-assigned id and timestamp. -/
structure UserProfile where
  email : String
  username : String
  firstName : String
  lastName : String
  walletAddress : String
  twinID : Option Int
  network : String
  hasWallet : Bool
  emailVerified : Bool
  isActive : Bool
deriving DecidableEq, Repr

/-- `AuthService.userToProfile` (health.go lines 542-557). -/
def userToProfile (user : UserRecord) : UserProfile :=
  { email := user.email
  , username := user.username
  , firstName := user.firstName
  , lastName := user.lastName
  , walletAddress := user.walletAddress
  , twinID := user.twinID
  , network := user.network
  , hasWallet := user.hasWallet
  , emailVerified := user.emailVerified
  , isActive := user.isActive }

/-- `services.WalletInfo`, the response-side wallet record (health.go lines
197-202); named apart from the adapter's `WalletInfo`. -/
structure WalletInfoResp where
  address : String
  network : String
  hasTwin : Bool
  twinID : Option Int
deriving DecidableEq, Repr

/-- `AuthResponse` (health.go lines 170-178), with expiry as a unix time. -/
structure AuthResponse where
  success : Bool
  token : String
  user : UserProfile
  walletInfo : WalletInfoResp
  expiresAt : Int
  message : String
deriving DecidableEq, Repr

/-- `AuthService` (health.go lines 146-151): the adapter plus the service's
other effectful collaborators, bcrypt hashing (random salt, so a function
chosen per call) and JWT signing (returns token and expiry). -/
structure AuthService where
  adapter : TFGridAdapterOps
  hashPassword : String → Except String String
  generateJWT : UserRecord → Except String (String × Int)

/-- `AuthService.Register` (health.go lines 220-322), with the database
passed explicitly: validation, existence checks, password hashing, the
two-flow wallet branch, wallet-address check, twin creation, the single
`db.Create` append, and JWT issuance.  Error wrapping follows the source's
`fmt.Errorf` messages.  Note that a JWT failure happens after the append, so
that error path returns the already-extended database, exactly as in Go. -/
def AuthService.Register (s : AuthService) (req : RegisterRequest)
    (db : List UserRecord) : Except String AuthResponse × List UserRecord :=
  match validateRegistrationInput s.adapter req with
  | Except.error e => (Except.error ("validation failed: " ++ e), db)
  | Except.ok _ =>
  match checkUserExists db req.email req.username with
  | Except.error e => (Except.error e, db)
  | Except.ok _ =>
  match s.hashPassword req.password with
  | Except.error e => (Except.error ("failed to hash password: " ++ e), db)
  | Except.ok hashedPassword =>
  match (if req.mnemonic != "" then
           match s.adapter.DeriveWalletFromMnemonic req.mnemonic with
           | Except.error e =>
               Except.error ("failed to derive wallet from mnemonic: " ++ e)
           | Except.ok w => Except.ok (w, true)
         else
           match s.adapter.GenerateWallet with
           | Except.error e => Except.error ("failed to generate wallet: " ++ e)
           | Except.ok w => Except.ok (w, false)) with
  | Except.error e => (Except.error e, db)
  | Except.ok (walletInfo, hasWallet) =>
  match checkWalletExists db walletInfo.address with
  | Except.error e => (Except.error e, db)
  | Except.ok _ =>
  match s.adapter.CreateDigitalTwin walletInfo.address
          { name := req.firstName ++ " " ++ req.lastName
          , email := req.email
          , description := "Anubis AI Platform User"
          , attributes := [("platform", "anubis-ai"), ("version", "1.0.0")] } with
  | Except.error e => (Except.error ("failed to create digital twin: " ++ e), db)
  | Except.ok digitalTwin =>
  let user : UserRecord :=
    { email := req.email
    , username := req.username
    , password := hashedPassword
    , firstName := req.firstName
    , lastName := req.lastName
    , walletAddress := walletInfo.address
    , twinID := some digitalTwin.id
    , publicKey := walletInfo.publicKey
    , network := walletInfo.network
    , hasWallet := hasWallet
    , isActive := true
    , emailVerified := false
    , deleted := false }
  let dbAfter := db ++ [user]
  match s.generateJWT user with
  | Except.error e => (Except.error ("failed to generate token: " ++ e), dbAfter)
  | Except.ok (token, expiresAt) =>
  (Except.ok
    { success := true
    , token := token
    , user := userToProfile user
    , walletInfo :=
        { address := walletInfo.address
        , network := walletInfo.network
        , hasTwin := true
        , twinID := some digitalTwin.id }
    , expiresAt := expiresAt
    , message := "Registration successful. Welcome to Anubis AI!" }, dbAfter)

/-!
Concrete sample values, used to instantiate the library-parametric theorems
below on executable inputs.
-/

/-- A concrete stand-in for the external BIP-39 / substrate signature
library, used only to instantiate library-parametric theorems at concrete
inputs: it accepts exactly the fixed test-vector mnemonic and derives a fixed
key pair. -/
def sampleCrypto : CryptoFns :=
  { isMnemonicValid := fun m => m == mockGenerateMnemonic
  , newMnemonic := fun _ => Except.ok mockGenerateMnemonic
  , keyringPairFromSecret := fun _ _ =>
      Except.ok { address := "5SampleAddress", publicKey := [1, 2, 3] } }

/-- The wallet the sample library yields on the main network. -/
def sampleMainWallet : WalletInfo :=
  { address := "5SampleAddress"
  , publicKey := "010203"
  , mnemonic := mockGenerateMnemonic
  , network := "main" }

/-!
Claim theorems.
-/

/-- Claim C6: constructing the real adapter with any token outside
{main, test, qa, dev} does not fail; it sets the adapter's network to "test"
and installs the test endpoint configuration, while each of the four
recognized tokens installs exactly its own network's configuration as
returned by GetNetworkInfo. -/
theorem C6_unsupported_network_fallback (s : String)
    (h1 : s ≠ "main") (h2 : s ≠ "test") (h3 : s ≠ "qa") (h4 : s ≠ "dev") :
    ((NewRealTFGridAdapter s).network = "test" ∧
      (NewRealTFGridAdapter s).GetNetworkInfo = testNetworkInfo) ∧
    ((NewRealTFGridAdapter "main").network = "main" ∧
      (NewRealTFGridAdapter "main").GetNetworkInfo = mainNetworkInfo) ∧
    ((NewRealTFGridAdapter "test").network = "test" ∧
      (NewRealTFGridAdapter "test").GetNetworkInfo = testNetworkInfo) ∧
    ((NewRealTFGridAdapter "qa").network = "qa" ∧
      (NewRealTFGridAdapter "qa").GetNetworkInfo = qaNetworkInfo) ∧
    ((NewRealTFGridAdapter "dev").network = "dev" ∧
      (NewRealTFGridAdapter "dev").GetNetworkInfo = devNetworkInfo) := by
  refine ⟨?_, by decide⟩
  unfold NewRealTFGridAdapter RealTFGridAdapter.GetNetworkInfo
  simp [h1, h2, h3, h4]

/-- Witness for C6 at the unrecognized token "production". -/
theorem C6_unsupported_network_fallback_witness :
    (("production" : String) ≠ "main" ∧ ("production" : String) ≠ "test" ∧
      ("production" : String) ≠ "qa" ∧ ("production" : String) ≠ "dev") ∧
    (((NewRealTFGridAdapter "production").network = "test" ∧
       (NewRealTFGridAdapter "production").GetNetworkInfo = testNetworkInfo) ∧
     ((NewRealTFGridAdapter "main").network = "main" ∧
       (NewRealTFGridAdapter "main").GetNetworkInfo = mainNetworkInfo) ∧
     ((NewRealTFGridAdapter "test").network = "test" ∧
       (NewRealTFGridAdapter "test").GetNetworkInfo = testNetworkInfo) ∧
     ((NewRealTFGridAdapter "qa").network = "qa" ∧
       (NewRealTFGridAdapter "qa").GetNetworkInfo = qaNetworkInfo) ∧
     ((NewRealTFGridAdapter "dev").network = "dev" ∧
       (NewRealTFGridAdapter "dev").GetNetworkInfo = devNetworkInfo)) :=
  ⟨⟨by decide, by decide, by decide, by decide⟩,
   C6_unsupported_network_fallback "production"
     (by decide) (by decide) (by decide) (by decide)⟩

/-- Claim C1 (amended): wallet derivation on the real adapter is
deterministic — the derivation is a pure function of the mnemonic and the
library with no random input, so any two calls that return a WalletInfo for
the same mnemonic on the same adapter return identical address strings and
identical public-key hex strings. -/
theorem C1_real_derivation_deterministic (lib : CryptoFns)
    (r : RealTFGridAdapter) (m : String) (w1 w2 : WalletInfo)
    (h1 : r.DeriveWalletFromMnemonic lib m = Except.ok w1)
    (h2 : r.DeriveWalletFromMnemonic lib m = Except.ok w2) :
    w1.address = w2.address ∧ w1.publicKey = w2.publicKey := by
  rw [h1] at h2
  injection h2 with h
  rw [h]
  exact ⟨rfl, rfl⟩

/-- Witness for C1 on the main-network adapter with the sample library. -/
theorem C1_real_derivation_deterministic_witness :
    ((NewRealTFGridAdapter "main").DeriveWalletFromMnemonic sampleCrypto
        mockGenerateMnemonic = Except.ok sampleMainWallet) ∧
    (sampleMainWallet.address = sampleMainWallet.address ∧
      sampleMainWallet.publicKey = sampleMainWallet.publicKey) :=
  ⟨rfl,
   C1_real_derivation_deterministic sampleCrypto (NewRealTFGridAdapter "main")
     mockGenerateMnemonic sampleMainWallet sampleMainWallet rfl rfl⟩

/-- Claim C1 counterexample: on the mock implementation of the interface,
derivation of the (valid) BIP-39 test-vector mnemonic never yields a
WalletInfo at all — the Go code panics on the slice `[:47]` of a
32-character hex string — so two calls do not yield WalletInfo values with
identical address strings, and the claim fails for the mock. -/
theorem C1_mock_determinism_counterexample :
    ¬ ∃ w1 w2 : WalletInfo,
        (NewMockTFGridAdapter "test").DeriveWalletFromMnemonic
            (fun _ => 0) mockGenerateMnemonic = some w1 ∧
        (NewMockTFGridAdapter "test").DeriveWalletFromMnemonic
            (fun _ => 1) mockGenerateMnemonic = some w2 ∧
        w1.address = w2.address := by
  rintro ⟨w1, w2, hd, _, _⟩
  have hnone : (NewMockTFGridAdapter "test").DeriveWalletFromMnemonic
      (fun _ => 0) mockGenerateMnemonic = none := by decide
  rw [hnone] at hd
  exact Option.noConfusion hd

/-- Claim C3: the twin id generated by CreateDigitalTwin is a pure function
of the random draw alone — no persisted counter is read and no collision
check against existing records is made — so two different wallet addresses
given the same random draw receive the same twin id, and uniqueness within a
network namespace is not guaranteed. -/
theorem C3_twin_id_unchecked_randomness :
    ((NewRealTFGridAdapter "main").CreateDigitalTwin 5 "5AddressOfWalletA"
        = Except.ok 5 ∧
     (NewRealTFGridAdapter "main").CreateDigitalTwin 5 "5AddressOfWalletB"
        = Except.ok 5) ∧
    ∀ (r : RealTFGridAdapter) (draw : Nat) (a1 a2 : String),
      r.CreateDigitalTwin draw a1 = r.CreateDigitalTwin draw a2 :=
  ⟨⟨rfl, rfl⟩, fun _ _ _ _ => rfl⟩

/-- Claim C4: the real adapter rejects, with the invalid-mnemonic error and
no WalletInfo, every mnemonic string the BIP-39 validation rejects; the
result does not depend on the key-derivation function at all, so the
validation check comes before any key derivation is attempted. -/
theorem C4_invalid_mnemonic_rejected
    (valid : String → Bool) (nm : List Byte → Except String String)
    (kp : String → Nat → Except String KeyringPair)
    (r : RealTFGridAdapter) (m : String) (h : valid m = false) :
    RealTFGridAdapter.DeriveWalletFromMnemonic
        { isMnemonicValid := valid, newMnemonic := nm
        , keyringPairFromSecret := kp } r m
      = Except.error "invalid mnemonic phrase" := by
  unfold RealTFGridAdapter.DeriveWalletFromMnemonic
  simp [h]

/-- Witness for C4 at a concrete garbage mnemonic. -/
theorem C4_invalid_mnemonic_rejected_witness :
    ((fun _ : String => false) "not a mnemonic" = false) ∧
    RealTFGridAdapter.DeriveWalletFromMnemonic
        { isMnemonicValid := fun _ => false
        , newMnemonic := fun _ => Except.error "unused"
        , keyringPairFromSecret := fun _ _ => Except.error "unused" }
        (NewRealTFGridAdapter "test") "not a mnemonic"
      = Except.error "invalid mnemonic phrase" :=
  ⟨rfl,
   C4_invalid_mnemonic_rejected (fun _ => false) (fun _ => Except.error "unused")
     (fun _ _ => Except.error "unused") (NewRealTFGridAdapter "test")
     "not a mnemonic" rfl⟩

/-- Claim C5 (amended): deriving the same mnemonic on real adapters
configured for any two networks yields the SAME address string and the same
public-key hex — the SS58 format is hard-coded to 42 for every network —
and only the Network label of the WalletInfo differs. -/
theorem C5_same_address_across_networks (lib : CryptoFns) (n1 n2 m : String) :
    ((NewRealTFGridAdapter n1).DeriveWalletFromMnemonic lib m).map
        (fun w => (w.address, w.publicKey))
      = ((NewRealTFGridAdapter n2).DeriveWalletFromMnemonic lib m).map
        (fun w => (w.address, w.publicKey)) := by
  by_cases hv : lib.isMnemonicValid m = false
  · simp [RealTFGridAdapter.DeriveWalletFromMnemonic, hv]
  · cases hk : lib.keyringPairFromSecret m 42 <;>
      simp [RealTFGridAdapter.DeriveWalletFromMnemonic, hv, hk, Except.map]

/-- Claim C5 counterexample: the same mnemonic on the "main" and "dev"
adapters yields the SAME address string (here with the concrete sample
library; the address depends only on the mnemonic and the hard-coded format
42, never on the network), refuting the claimed distinct address strings per
network. -/
theorem C5_network_isolation_counterexample :
    ((NewRealTFGridAdapter "main").DeriveWalletFromMnemonic sampleCrypto
        mockGenerateMnemonic).map (fun w => w.address) = Except.ok "5SampleAddress" ∧
    ((NewRealTFGridAdapter "dev").DeriveWalletFromMnemonic sampleCrypto
        mockGenerateMnemonic).map (fun w => w.address) = Except.ok "5SampleAddress" :=
  ⟨rfl, rfl⟩

/-- Claim C7 (amended): the real adapter's GenerateWallet feeds its 32 bytes
of entropy to the BIP-39 library, delegates the produced mnemonic to
DeriveWalletFromMnemonic, and every WalletInfo it returns carries exactly
that mnemonic. -/
theorem C7_generate_delegates_to_derive (lib : CryptoFns)
    (r : RealTFGridAdapter) (entropy : List Byte) (mn : String)
    (hmn : lib.newMnemonic entropy = Except.ok mn) :
    r.GenerateWallet lib entropy = r.DeriveWalletFromMnemonic lib mn ∧
    ∀ w, r.GenerateWallet lib entropy = Except.ok w → w.mnemonic = mn := by
  have hdel : r.GenerateWallet lib entropy = r.DeriveWalletFromMnemonic lib mn := by
    unfold RealTFGridAdapter.GenerateWallet
    rw [hmn]
  refine ⟨hdel, fun w hw => ?_⟩
  rw [hdel] at hw
  unfold RealTFGridAdapter.DeriveWalletFromMnemonic at hw
  by_cases hv : lib.isMnemonicValid mn = false
  · rw [if_pos hv] at hw
    exact Except.noConfusion hw
  · rw [if_neg hv] at hw
    cases hk : lib.keyringPairFromSecret mn 42 with
    | error e => rw [hk] at hw; exact Except.noConfusion hw
    | ok keyringPair =>
        rw [hk] at hw
        injection hw with h
        rw [← h]

/-- Witness for C7 with the sample library on 32 zero bytes of entropy. -/
theorem C7_generate_delegates_to_derive_witness :
    (sampleCrypto.newMnemonic (List.replicate 32 0)
        = Except.ok mockGenerateMnemonic) ∧
    ((NewRealTFGridAdapter "main").GenerateWallet sampleCrypto
          (List.replicate 32 0)
        = (NewRealTFGridAdapter "main").DeriveWalletFromMnemonic sampleCrypto
          mockGenerateMnemonic ∧
      ∀ w, (NewRealTFGridAdapter "main").GenerateWallet sampleCrypto
          (List.replicate 32 0) = Except.ok w →
        w.mnemonic = mockGenerateMnemonic) :=
  ⟨rfl,
   C7_generate_delegates_to_derive sampleCrypto (NewRealTFGridAdapter "main")
     (List.replicate 32 0) mockGenerateMnemonic rfl⟩

/-- Claim C7 counterexample: the mock implementation's GenerateWallet does
not draw fresh 256-bit entropy: it always delegates the fixed BIP-39
test-vector mnemonic, which has 12 words rather than 24, and the call
returns no WalletInfo at all (the Go mock derivation panics), so the
returned WalletInfo cannot carry a fresh 24-word mnemonic. -/
theorem C7_mock_generate_counterexample :
    (NewMockTFGridAdapter "test").GenerateWallet (fun _ => 0) = none ∧
    wordCount mockGenerateMnemonic = 12 :=
  ⟨rfl, rfl⟩

/-- The hex encoding of a byte list has exactly two characters per byte. -/
theorem hexEncode_length (l : List Byte) : (hexEncode l).length = 2 * l.length := by
  show (List.flatten (l.map hexByte)).length = 2 * l.length
  induction l with
  | nil => rfl
  | cons b t ih =>
      simp only [List.map_cons, List.flatten_cons, List.length_append,
        List.length_cons, hexByte, List.length_nil] at *
      omega

/-- Claim C9: the mock derivation never returns a WalletInfo for any byte
stream, any mnemonic (including the empty string) and any network: the hex
encoding of the 16 random address bytes has 32 characters, so the Go slice
`[:47]` of it panics on every call. -/
theorem C9_mock_derive_always_panics (network : String) (rng : Nat → Byte)
    (mnemonic : String) :
    (NewMockTFGridAdapter network).DeriveWalletFromMnemonic rng mnemonic
      = none := by
  have h : (hexEncode ((List.range 16).map rng)).length = 32 := by
    rw [hexEncode_length]
    simp
  unfold MockTFGridAdapter.DeriveWalletFromMnemonic goStringSliceTo
  simp [h]

/-- Claim C2: if the adapter's twin registration fails, Register returns an
error and the database is exactly the input database — the user record is
only ever created after twin registration has succeeded, and no persistent
write happens before it. -/
theorem C2_no_partial_state_on_twin_failure (s : AuthService)
    (req : RegisterRequest) (db : List UserRecord)
    (htwin : ∀ addr md, ∃ e,
      s.adapter.CreateDigitalTwin addr md = Except.error e) :
    ∃ e, s.Register req db = (Except.error e, db) := by
  unfold AuthService.Register
  split
  · exact ⟨_, rfl⟩
  split
  · exact ⟨_, rfl⟩
  split
  · exact ⟨_, rfl⟩
  split
  · exact ⟨_, rfl⟩
  split
  · exact ⟨_, rfl⟩
  split
  · exact ⟨_, rfl⟩
  rename_i digitalTwin hdt
  obtain ⟨e, he⟩ := htwin _ _
  rw [he] at hdt
  exact Except.noConfusion hdt

/-- A wallet returned by the stand-in adapter operations below. -/
def sampleOpsWallet : WalletInfo :=
  { address := "5GeneratedAddress"
  , publicKey := "0a0b"
  , mnemonic := mockGenerateMnemonic
  , network := "test" }

/-- Stand-in adapter operations whose twin registration always fails. -/
def failTwinOps : TFGridAdapterOps :=
  { GenerateWallet := Except.ok sampleOpsWallet
  , DeriveWalletFromMnemonic := fun m => Except.ok { sampleOpsWallet with mnemonic := m }
  , CreateDigitalTwin := fun _ _ => Except.error "twin registration failed"
  , ValidateMnemonic := fun _ => Except.ok () }

/-- Authentication service over the failing-twin stand-in adapter. -/
def failTwinService : AuthService :=
  { adapter := failTwinOps
  , hashPassword := fun p => Except.ok ("bcrypt$" ++ p)
  , generateJWT := fun _ => Except.ok ("jwt-token", 1700000000) }

/-- A well-formed registration request using the generated-wallet flow. -/
def sampleRequest : RegisterRequest :=
  { firstName := "John"
  , lastName := "Doe"
  , email := "john@example.com"
  , password := "password123"
  , username := "johndoe"
  , mnemonic := "" }

/-- Witness for C2: with the failing twin registrar, registering into an
empty database returns an error and leaves the database empty. -/
theorem C2_no_partial_state_on_twin_failure_witness :
    (∀ addr md, ∃ e,
      failTwinService.adapter.CreateDigitalTwin addr md = Except.error e) ∧
    ∃ e, failTwinService.Register sampleRequest [] = (Except.error e, []) :=
  ⟨fun _ _ => ⟨"twin registration failed", rfl⟩,
   C2_no_partial_state_on_twin_failure failTwinService sampleRequest []
     (fun _ _ => ⟨"twin registration failed", rfl⟩)⟩

/-- A persisted user record for the collision examples. -/
def aliceUser : UserRecord :=
  { email := "alice@example.com"
  , username := "alice99"
  , password := "bcrypt$secret"
  , firstName := "Alice"
  , lastName := "Smith"
  , walletAddress := "5AliceAddress"
  , twinID := some 1
  , publicKey := "aa"
  , network := "test"
  , hasWallet := true
  , isActive := true
  , emailVerified := false
  , deleted := false }

/-- A persisted user holding the username "alice" but a different email. -/
def bobUser : UserRecord :=
  { aliceUser with
      email := "bob@example.com"
    , username := "alice"
    , walletAddress := "5BobAddress" }

/-- Claim C8 (amended): the conflict error names the colliding field — a
database state colliding on the email yields the error "email already
exists", while a state colliding only on the username yields "username
already exists" — so the two collision kinds are observably distinct to the
caller, enabling account enumeration per field. -/
theorem C8_conflict_error_reveals_field (db1 db2 : List UserRecord)
    (email username : String)
    (h1 : countUsersByEmail db1 email > 0)
    (h2 : countUsersByEmail db2 email = 0)
    (h3 : countUsersByUsername db2 username > 0) :
    checkUserExists db1 email username = Except.error "email already exists" ∧
    checkUserExists db2 email username = Except.error "username already exists" ∧
    checkUserExists db1 email username ≠ checkUserExists db2 email username := by
  have e1 : checkUserExists db1 email username
      = Except.error "email already exists" := by
    unfold checkUserExists
    rw [if_pos h1]
  have e2 : checkUserExists db2 email username
      = Except.error "username already exists" := by
    unfold checkUserExists
    rw [if_neg (by omega : ¬ countUsersByEmail db2 email > 0), if_pos h3]
  refine ⟨e1, e2, ?_⟩
  rw [e1, e2]
  intro h
  injection h with h
  exact absurd h (by decide)

/-- Witness for C8 at concrete database states. -/
theorem C8_conflict_error_reveals_field_witness :
    (countUsersByEmail [aliceUser] "alice@example.com" > 0 ∧
      countUsersByEmail [bobUser] "alice@example.com" = 0 ∧
      countUsersByUsername [bobUser] "alice" > 0) ∧
    (checkUserExists [aliceUser] "alice@example.com" "alice"
        = Except.error "email already exists" ∧
      checkUserExists [bobUser] "alice@example.com" "alice"
        = Except.error "username already exists" ∧
      checkUserExists [aliceUser] "alice@example.com" "alice"
        ≠ checkUserExists [bobUser] "alice@example.com" "alice") :=
  ⟨⟨by decide, by decide, by decide⟩,
   C8_conflict_error_reveals_field [aliceUser] [bobUser]
     "alice@example.com" "alice" (by decide) (by decide) (by decide)⟩

/-- Claim C8 counterexample: the error returned when the email collides is
"email already exists" and the one returned when only the username collides
is "username already exists"; the two error values are different, so the
returned error is not the same regardless of which field matched. -/
theorem C8_account_enumeration_counterexample :
    checkUserExists [aliceUser] "alice@example.com" "alice"
      = Except.error "email already exists" ∧
    checkUserExists [bobUser] "alice@example.com" "alice"
      = Except.error "username already exists" ∧
    (Except.error "email already exists" : Except String Unit)
      ≠ Except.error "username already exists" := by
  refine ⟨rfl, rfl, ?_⟩
  intro h
  injection h with h
  exact absurd h (by decide)

/-- Claim C10: Register persists the user with hasWallet true exactly when
the request carried a non-empty mnemonic (the existing-wallet flow); a user
registered through the generated-wallet flow is persisted with hasWallet
false even though the generated wallet's address and public key and a twin
id are stored on the record. -/
theorem C10_hasWallet_marks_flow (s : AuthService) (req : RegisterRequest)
    (db : List UserRecord) (resp : AuthResponse)
    (h : (s.Register req db).1 = Except.ok resp) :
    ∃ u w,
      (if req.mnemonic != "" then s.adapter.DeriveWalletFromMnemonic req.mnemonic
       else s.adapter.GenerateWallet) = Except.ok w ∧
      (s.Register req db).2 = db ++ [u] ∧
      u.hasWallet = (req.mnemonic != "") ∧
      u.walletAddress = w.address ∧
      u.publicKey = w.publicKey ∧
      u.twinID.isSome = true := by
  unfold AuthService.Register at h ⊢
  split at h
  · exact absurd h (by simp)
  rename_i u1 hval
  split at h
  · exact absurd h (by simp)
  rename_i u2 hchk
  split at h
  · exact absurd h (by simp)
  rename_i hashedPassword hhash
  split at h
  · exact absurd h (by simp)
  rename_i walletInfo wh hflow
  split at h
  · exact absurd h (by simp)
  rename_i u3 hwchk
  split at h
  · exact absurd h (by simp)
  rename_i digitalTwin hdt
  dsimp only at h
  split at h
  · exact absurd h (by simp)
  rename_i token expiresAt hjwt
  have hwc : wh = (req.mnemonic != "") ∧
      (if req.mnemonic != "" then s.adapter.DeriveWalletFromMnemonic req.mnemonic
       else s.adapter.GenerateWallet) = Except.ok walletInfo := by
    cases hb : (req.mnemonic != "") with
    | true =>
        rw [hb] at hflow
        rw [if_pos rfl] at hflow
        rw [if_pos rfl]
        cases hd : s.adapter.DeriveWalletFromMnemonic req.mnemonic with
        | error e => rw [hd] at hflow; exact Except.noConfusion hflow
        | ok w0 =>
            rw [hd] at hflow
            injection hflow with hp
            injection hp with hw1 hw2
            exact ⟨hw2.symm, by rw [hw1]⟩
    | false =>
        rw [hb] at hflow
        rw [if_neg (by simp)] at hflow
        rw [if_neg (by simp)]
        cases hd : s.adapter.GenerateWallet with
        | error e => rw [hd] at hflow; exact Except.noConfusion hflow
        | ok w0 =>
            rw [hd] at hflow
            injection hflow with hp
            injection hp with hw1 hw2
            exact ⟨hw2.symm, by rw [hw1]⟩
  obtain ⟨hwh, hcall⟩ := hwc
  refine ⟨{ email := req.email, username := req.username, password := hashedPassword
          , firstName := req.firstName, lastName := req.lastName
          , walletAddress := walletInfo.address, twinID := some digitalTwin.id
          , publicKey := walletInfo.publicKey, network := walletInfo.network
          , hasWallet := wh, isActive := true, emailVerified := false
          , deleted := false },
         walletInfo, hcall, ?_, hwh, rfl, rfl, rfl⟩
  simp only [hval, hchk, hhash, hflow, hwchk, hdt, hjwt]

/-- Stand-in adapter operations for which every operation succeeds; the twin
registrar returns id 424242. -/
def okTwinOps : TFGridAdapterOps :=
  { GenerateWallet := Except.ok sampleOpsWallet
  , DeriveWalletFromMnemonic := fun m => Except.ok { sampleOpsWallet with mnemonic := m }
  , CreateDigitalTwin := fun addr md =>
      Except.ok { id := 424242, ownerAddress := addr, metadata := md }
  , ValidateMnemonic := fun _ => Except.ok () }

/-- Authentication service over the all-succeeding stand-in adapter. -/
def okService : AuthService :=
  { adapter := okTwinOps
  , hashPassword := fun p => Except.ok ("bcrypt$" ++ p)
  , generateJWT := fun _ => Except.ok ("jwt-token", 1700000000) }

/-- The user record persisted by `okService.Register sampleRequest []`. -/
def sampleRegisteredUser : UserRecord :=
  { email := "john@example.com"
  , username := "johndoe"
  , password := "bcrypt$password123"
  , firstName := "John"
  , lastName := "Doe"
  , walletAddress := "5GeneratedAddress"
  , twinID := some 424242
  , publicKey := "0a0b"
  , network := "test"
  , hasWallet := false
  , isActive := true
  , emailVerified := false
  , deleted := false }

/-- The response returned by `okService.Register sampleRequest []`. -/
def sampleRegisterResp : AuthResponse :=
  { success := true
  , token := "jwt-token"
  , user := userToProfile sampleRegisteredUser
  , walletInfo :=
      { address := "5GeneratedAddress", network := "test"
      , hasTwin := true, twinID := some 424242 }
  , expiresAt := 1700000000
  , message := "Registration successful. Welcome to Anubis AI!" }

/-- Witness for C10: a concrete successful generated-flow registration. -/
theorem C10_hasWallet_marks_flow_witness :
    ((okService.Register sampleRequest []).1 = Except.ok sampleRegisterResp) ∧
    ∃ u w,
      (if sampleRequest.mnemonic != "" then
        okService.adapter.DeriveWalletFromMnemonic sampleRequest.mnemonic
       else okService.adapter.GenerateWallet) = Except.ok w ∧
      (okService.Register sampleRequest []).2 = [] ++ [u] ∧
      u.hasWallet = (sampleRequest.mnemonic != "") ∧
      u.walletAddress = w.address ∧
      u.publicKey = w.publicKey ∧
      u.twinID.isSome = true :=
  ⟨rfl, C10_hasWallet_marks_flow okService sampleRequest [] sampleRegisterResp rfl⟩
